import Mathlib

/-!
Verification of the SentinelPro supply-projection and alerting engine
(`getSupplyProjections` / `generateSupplyAlerts` in `server/storage.ts`).

The engine is embedded shallowly: numeric values are rationals, dates are
day numbers (day granularity, which is all the source uses after its
`toISOString().split('T')[0]` keying), and the external alert store is an
explicit `Store` value threaded through the alert-policy functions.
Fallible store writes are modelled in an `Except Store Store` monad whose
error carries the store state at the throw point, matching the fact that
database writes performed before an exception persist.
-/

namespace SentinelPro

/-- Color mode of a print job: the source schema stores "bw" or "color". -/
inductive ColorMode
  | bw
  | color
deriving DecidableEq, Repr

/-- A print-job record as consumed by getSupplyProjections: printedAt at day
granularity, pageCount, colorMode and an optional paper-type reference. -/
structure Job where
  printedAt : ℕ
  pageCount : ℚ
  colorMode : ColorMode
  paperTypeId : Option String
deriving DecidableEq, Repr

/-- A paper type with its current stock (storage.ts getAllPaperTypes). -/
structure PaperType where
  id : String
  name : String
  stock : ℚ
deriving DecidableEq, Repr

/-- A toner cartridge with its color and current stock. -/
structure TonerCartridge where
  id : String
  name : String
  color : String
  stock : ℚ
deriving DecidableEq, Repr

/-- A supply projection as pushed by getSupplyProjections
(storage.ts:1292-1304 for paper, 1359-1373 for toner). -/
structure Projection where
  type : String
  id : String
  name : String
  color : Option String
  currentStock : ℚ
  dailyConsumption : ℚ
  trend : ℚ
  estimatedPagesPerUnit : Option ℚ
  daysRemaining : ℤ
  estimatedDepletionDate : ℤ
  status : String
  confidence : String
  dataPoints : ℕ
deriving DecidableEq, Repr

/-- JavaScript Math.round: round half toward positive infinity. -/
def jsRound (x : ℚ) : ℤ := ⌊x + 1 / 2⌋

/-- Math.round(x * 100) / 100, the two-decimal rounding used at
storage.ts:1297-1298 and 1365-1366. -/
def round2 (x : ℚ) : ℚ := (jsRound (x * 100) : ℚ) / 100

/-- Sum of the regression indices 0..n-1: the sumX reduce of calculateTrend
(storage.ts:1215), which ignores the data values. -/
def olsSumX (ys : List ℚ) : ℚ := ((List.range ys.length).map fun i : ℕ => (i : ℚ)).sum

/-- Sum of the data values: the sumY reduce of calculateTrend (storage.ts:1216). -/
def olsSumY (ys : List ℚ) : ℚ := ys.sum

/-- Sum of index * value: the sumXY reduce of calculateTrend (storage.ts:1217). -/
def olsSumXY (ys : List ℚ) : ℚ := (ys.enum.map fun p => (p.1 : ℚ) * p.2).sum

/-- Sum of squared indices: the sumXX reduce of calculateTrend (storage.ts:1218). -/
def olsSumXX (ys : List ℚ) : ℚ := ((List.range ys.length).map fun i : ℕ => (i : ℚ) * (i : ℚ)).sum

/-- calculateTrend (storage.ts:1211-1222): index-based ordinary least squares
slope of the daily totals. The stored dates are never read, so the argument is
the list of values. Returns 0 when fewer than 2 data points. -/
def calculateTrend (ys : List ℚ) : ℚ :=
  if ys.length < 2 then 0
  else ((ys.length : ℚ) * olsSumXY ys - olsSumX ys * olsSumY ys) /
    ((ys.length : ℚ) * olsSumXX ys - olsSumX ys * olsSumX ys)

/-- The trailing-7-day average of calculatePredictiveConsumption
(storage.ts:1232): sum of slice(-7) divided by min(7, length). -/
def recentAvgOf (dailyConsumptions : List ℚ) : ℚ :=
  (dailyConsumptions.drop (dailyConsumptions.length - 7)).sum /
    ((min 7 dailyConsumptions.length : ℕ) : ℚ)

/-- calculatePredictiveConsumption (storage.ts:1225-1237): recent average plus
trend, a 10% buffer, floored at zero; 0 for an empty series. -/
def calculatePredictiveConsumption (dailyConsumptions : List ℚ) (trend : ℚ) : ℚ :=
  if dailyConsumptions.length = 0 then 0
  else max ((recentAvgOf dailyConsumptions + trend) * (11 / 10)) 0

/-- One step of the per-day aggregation loops (storage.ts:1251-1263 for paper,
1322-1333 for toner): add the pages of a job to the existing entry for its day,
or append a new entry for a first job on that day. -/
def addJobEntry (acc : List (ℕ × ℚ)) (day : ℕ) (pages : ℚ) : List (ℕ × ℚ) :=
  if acc.any fun e => e.1 = day then
    acc.map fun e => if e.1 = day then (e.1, e.2 + pages) else e
  else acc ++ [(day, pages)]

/-- Accumulate the jobs of one resource into per-day totals, in job order. -/
def buildSeries (jobs : List Job) : List (ℕ × ℚ) :=
  jobs.foldl (fun acc j => addJobEntry acc j.printedAt j.pageCount) []

/-- The per-resource consumption series: per-day totals sorted ascending by day
(the consumptionData.sort call at storage.ts:1275 / 1345). -/
def seriesFor (jobs : List Job) : List (ℕ × ℚ) :=
  (buildSeries jobs).insertionSort fun a b => a.1 ≤ b.1

/-- The 90-day window filter (storage.ts:1202-1208): keep jobs whose day is at
least today minus 90. -/
def recentJobsOf (today : ℕ) (jobs : List Job) : List Job :=
  jobs.filter fun j => today ≤ j.printedAt + 90

/-- Jobs attributed to one paper type (the job.paperTypeId grouping at
storage.ts:1242-1243); jobs without a paperTypeId are excluded. -/
def paperJobs (jobs : List Job) (ptId : String) : List Job :=
  jobs.filter fun j => j.paperTypeId = some ptId

/-- Jobs feeding the single toner pseudo-resource: exactly the jobs with
colorMode "color" (storage.ts:1313-1314). -/
def colorJobs (jobs : List Job) : List Job :=
  jobs.filter fun j => j.colorMode = ColorMode.color

/-- The status ternary at storage.ts:1301 and 1370. -/
def statusFor (daysRemaining : ℤ) : String :=
  if daysRemaining ≤ 3 then "critical"
  else if daysRemaining ≤ 7 then "warning"
  else if daysRemaining ≤ 14 then "caution"
  else "normal"

/-- Mean of the daily totals (storage.ts:1288 / 1355). -/
def meanOf (xs : List ℚ) : ℚ := xs.sum / (xs.length : ℚ)

/-- Population variance of the daily totals (storage.ts:1289 / 1356). -/
def varianceOf (xs : List ℚ) : ℚ :=
  (xs.map fun v => (v - meanOf xs) ^ 2).sum / (xs.length : ℚ)

/-- The confidence ternary at storage.ts:1290 / 1357. -/
def confidenceFor (xs : List ℚ) : String :=
  if varianceOf xs < meanOf xs * (1 / 2) then "high"
  else if varianceOf xs < meanOf xs * 1 then "medium"
  else "low"

/-- Math.floor(availableUnits / predictedDaily): storage.ts:1285 / 1353. -/
def daysRemainingFor (availableUnits predictedDaily : ℚ) : ℤ :=
  ⌊availableUnits / predictedDaily⌋

/-- The paper projection record pushed at storage.ts:1292-1304. -/
def paperRecord (today : ℕ) (pt : PaperType) (consumptionData : List (ℕ × ℚ)) : Projection :=
  let dailyConsumptions := consumptionData.map fun d => d.2
  let trend := calculateTrend dailyConsumptions
  let predictedDailyConsumption := calculatePredictiveConsumption dailyConsumptions trend
  let daysRemaining := daysRemainingFor pt.stock predictedDailyConsumption
  { type := "paper"
    id := pt.id
    name := pt.name
    color := none
    currentStock := pt.stock
    dailyConsumption := round2 predictedDailyConsumption
    trend := round2 trend
    estimatedPagesPerUnit := none
    daysRemaining := daysRemaining
    estimatedDepletionDate := (today : ℤ) + daysRemaining
    status := statusFor daysRemaining
    confidence := confidenceFor dailyConsumptions
    dataPoints := consumptionData.length }

/-- The body of the paper loop at storage.ts:1270-1307: a projection is pushed
only when the series is non-empty and the predicted daily consumption is
positive. -/
def mkPaperProjection (today : ℕ) (pt : PaperType) (consumptionData : List (ℕ × ℚ)) :
    Option Projection :=
  if 0 < consumptionData.length then
    if 0 < calculatePredictiveConsumption (consumptionData.map fun d => d.2)
        (calculateTrend (consumptionData.map fun d => d.2))
    then some (paperRecord today pt consumptionData)
    else none
  else none

/-- All paper projections (storage.ts:1270-1307). -/
def paperProjections (today : ℕ) (recentJobs : List Job) (paperTypes : List PaperType) :
    List Projection :=
  paperTypes.filterMap fun pt =>
    mkPaperProjection today pt (seriesFor (paperJobs recentJobs pt.id))

/-- The pages-per-cartridge lookup at storage.ts:1339-1340. -/
def estimatedPagesPerCartridge (color : String) : ℚ :=
  if color = "black" then 2500 else if color = "tricolor" then 1500 else 1200

/-- The toner projection record pushed at storage.ts:1359-1373. -/
def tonerRecord (today : ℕ) (toner : TonerCartridge) (consumptionData : List (ℕ × ℚ)) :
    Projection :=
  let dailyConsumptions := consumptionData.map fun d => d.2
  let trend := calculateTrend dailyConsumptions
  let predictedDailyConsumption := calculatePredictiveConsumption dailyConsumptions trend
  let pagesRemaining := toner.stock * estimatedPagesPerCartridge toner.color
  let daysRemaining := daysRemainingFor pagesRemaining predictedDailyConsumption
  { type := "toner"
    id := toner.id
    name := toner.name
    color := some toner.color
    currentStock := toner.stock
    dailyConsumption := round2 predictedDailyConsumption
    trend := round2 trend
    estimatedPagesPerUnit := some (estimatedPagesPerCartridge toner.color)
    daysRemaining := daysRemaining
    estimatedDepletionDate := (today : ℤ) + daysRemaining
    status := statusFor daysRemaining
    confidence := confidenceFor dailyConsumptions
    dataPoints := consumptionData.length }

/-- The body of the toner loop at storage.ts:1337-1376. -/
def mkTonerProjection (today : ℕ) (toner : TonerCartridge) (consumptionData : List (ℕ × ℚ)) :
    Option Projection :=
  if 0 < consumptionData.length then
    if 0 < calculatePredictiveConsumption (consumptionData.map fun d => d.2)
        (calculateTrend (consumptionData.map fun d => d.2))
    then some (tonerRecord today toner consumptionData)
    else none
  else none

/-- All toner projections: every cartridge is projected against the single
company-wide series of color jobs (storage.ts:1337-1376). -/
def tonerProjections (today : ℕ) (recentJobs : List Job) (toners : List TonerCartridge) :
    List Projection :=
  toners.filterMap fun t => mkTonerProjection today t (seriesFor (colorJobs recentJobs))

/-- getSupplyProjections (storage.ts:1197-1384): paper then toner projections,
sorted ascending by daysRemaining. -/
def getSupplyProjections (today : ℕ) (jobs : List Job) (paperTypes : List PaperType)
    (toners : List TonerCartridge) : List Projection :=
  let recentJobs := recentJobsOf today jobs
  (paperProjections today recentJobs paperTypes ++
    tonerProjections today recentJobs toners).insertionSort
    fun a b => a.daysRemaining ≤ b.daysRemaining

/-- A persisted alert row (the alerts table columns read by
generateSupplyAlerts). -/
structure Alert where
  id : ℕ
  companyId : String
  type : String
  title : String
  message : String
  severity : String
  read : Bool
  resourceId : String
  resourceType : String
deriving DecidableEq, Repr

/-- The payload of a createAlert call (storage.ts:1446-1454). -/
structure AlertData where
  companyId : String
  type : String
  title : String
  message : String
  severity : String
  resourceId : String
  resourceType : String
deriving DecidableEq, Repr

/-- The external alert store: the persisted rows plus the next fresh id. -/
structure Store where
  alerts : List Alert
  nextId : ℕ
deriving DecidableEq, Repr

/-- An empty alert store. -/
def Store.empty : Store := ⟨[], 0⟩

/-- getAllAlerts(companyId) (storage.ts:1099-1106): the company's alert rows. -/
def Store.getAllAlerts (s : Store) (companyId : String) : List Alert :=
  s.alerts.filter fun a => a.companyId = companyId

/-- createAlert (storage.ts:1108-1111): insert a new unread alert row. -/
def Store.createAlert (s : Store) (d : AlertData) : Store :=
  { alerts := s.alerts ++
      [{ id := s.nextId, companyId := d.companyId, type := d.type, title := d.title,
         message := d.message, severity := d.severity, read := false,
         resourceId := d.resourceId, resourceType := d.resourceType }]
    nextId := s.nextId + 1 }

/-- markAlertRead (storage.ts:1113-1115): set the read flag of one row. -/
def Store.markAlertRead (s : Store) (id : ℕ) : Store :=
  { s with alerts := s.alerts.map fun a => if a.id = id then { a with read := true } else a }

/-- Fallible alert creation: failing c models the uncaught throw of a
createAlert call for company c (storage.ts:1108-1111 has no try/catch). The
error value carries the store at the throw point, since writes performed
before an exception persist. -/
def Store.createAlertE (failing : String → Bool) (s : Store) (d : AlertData) :
    Except Store Store :=
  if failing d.companyId then Except.error s else Except.ok (s.createAlert d)

/-- Decimal value of the digit capture, as parseInt on the regex match. -/
def digitsToNat (ds : List Char) : ℕ :=
  ds.foldl (fun n c => 10 * n + (c.toNat - Char.toNat (Char.ofNat 48))) 0

/-- Leftmost match of the regex (\d+) día (storage.ts:1457): the first maximal
digit run immediately followed by the text " día"; returns the captured
number. Scanning character by character is equivalent to skipping failed runs
because every suffix of a failed run is followed by the same non-matching
text. -/
def findDiasCount : List Char → Option ℕ
  | [] => none
  | c :: cs =>
    if c.isDigit then
      let ds := c :: cs.takeWhile Char.isDigit
      let rest := cs.dropWhile Char.isDigit
      if (" día".toList).isPrefixOf rest then some (digitsToNat ds)
      else findDiasCount cs
    else findDiasCount cs

/-- parseInt(similarAlert.message.match(pattern) or "0") at storage.ts:1457:
the day count embedded in an alert message, defaulting to 0 when the message
has no parsable day count. -/
def parseDias (message : String) : ℕ := (findDiasCount message.toList).getD 0

/-- The alert type, title, message and severity selected from a projection by
the band ladder at storage.ts:1408-1432; none when daysRemaining is 15 or
more (alertType stays empty and the projection is skipped). -/
def alertContentFor (p : Projection) : Option (String × String × String × String) :=
  if p.daysRemaining ≤ 0 then
    some ((if p.type = "paper" then "paper_depleted" else "toner_depleted"),
      (if p.type = "paper" then "Papel" else "Tóner") ++ " agotado",
      "El " ++ (if p.type = "paper" then "tipo de papel" else "cartucho de tóner") ++
        " \"" ++ p.name ++ "\" se ha agotado. Stock actual: " ++ toString p.currentStock,
      "error")
  else if p.daysRemaining ≤ 3 then
    some ((if p.type = "paper" then "paper_critical" else "toner_critical"),
      "¡" ++ (if p.type = "paper" then "Papel" else "Tóner") ++ " crítico!",
      (if p.type = "paper" then "Tipo de papel" else "Cartucho de tóner") ++
        " \"" ++ p.name ++ "\" se agotará en " ++ toString p.daysRemaining ++
        " día(s). Stock actual: " ++ toString p.currentStock ++
        ". Consumo diario: " ++ toString p.dailyConsumption,
      "error")
  else if p.daysRemaining ≤ 7 then
    some ((if p.type = "paper" then "paper_warning" else "toner_warning"),
      (if p.type = "paper" then "Papel" else "Tóner") ++ " bajo",
      (if p.type = "paper" then "Tipo de papel" else "Cartucho de tóner") ++
        " \"" ++ p.name ++ "\" se agotará en " ++ toString p.daysRemaining ++
        " día(s). Stock actual: " ++ toString p.currentStock,
      "warning")
  else if p.daysRemaining ≤ 14 then
    some ((if p.type = "paper" then "paper_caution" else "toner_caution"),
      (if p.type = "paper" then "Papel" else "Tóner") ++ " próximo a agotarse",
      (if p.type = "paper" then "Tipo de papel" else "Cartucho de tóner") ++
        " \"" ++ p.name ++ "\" se agotará en " ++ toString p.daysRemaining ++
        " día(s). Considere reabastecer.",
      "warning")
  else none

/-- The similar-alert lookup at storage.ts:1437-1442: first unread alert with
the same type, resourceId and resourceType. -/
def findSimilarAlert (alerts : List Alert) (ty rid rty : String) : Option Alert :=
  alerts.find? fun a => a.type == ty && a.resourceId == rid && a.resourceType == rty && !a.read

/-- One projection of the alert loop (storage.ts:1402-1473): pick the alert
content for the projection's band; create when no similar unread alert exists;
when one exists, mark it read and create a new one if the day difference is at
least 2, otherwise do nothing. -/
def processProjection (failing : String → Bool) (compId : String) (p : Projection) (s : Store) :
    Except Store Store :=
  match alertContentFor p with
  | none => Except.ok s
  | some (alertType, title, message, severity) =>
    let d : AlertData := ⟨compId, alertType, title, message, severity, p.id, p.type⟩
    match findSimilarAlert (s.getAllAlerts compId) alertType p.id p.type with
    | none => s.createAlertE failing d
    | some similarAlert =>
      if 2 ≤ |p.daysRemaining - (parseDias similarAlert.message : ℤ)| then
        (s.markAlertRead similarAlert.id).createAlertE failing d
      else Except.ok s

/-- The unreliable-projection lookup at storage.ts:1482-1486: unread
projection_unreliable alert for the same resourceId (no resourceType check). -/
def findUnreliableAlert (alerts : List Alert) (rid : String) : Option Alert :=
  alerts.find? fun a => a.type == "projection_unreliable" && a.resourceId == rid && !a.read

/-- Title of the unreliable-projection alert (storage.ts:1492). -/
def unreliableTitle (name : String) : String := "Proyección poco confiable: " ++ name

/-- Message of the unreliable-projection alert (storage.ts:1493). -/
def unreliableMsg (name : String) : String :=
  "La proyección de agotamiento para \"" ++ name ++
    "\" tiene baja confiabilidad debido a datos insuficientes o variabilidad alta. Considere revisar el inventario manualmente."

/-- One projection of the low-confidence loop (storage.ts:1480-1499): create a
projection_unreliable info alert when no unread one exists for the resource;
otherwise do nothing (this loop has no update branch). -/
def processUnreliable (failing : String → Bool) (compId : String) (p : Projection) (s : Store) :
    Except Store Store :=
  match findUnreliableAlert (s.getAllAlerts compId) p.id with
  | some _ => Except.ok s
  | none =>
    s.createAlertE failing
      ⟨compId, "projection_unreliable", unreliableTitle p.name, unreliableMsg p.name,
        "info", p.id, p.type⟩

/-- Sequential processing with exception semantics: stop at the first error,
carrying the store state reached so far. -/
def foldE {α : Type} (f : α → Store → Except Store Store) : List α → Store → Except Store Store
  | [], s => Except.ok s
  | x :: xs, s =>
    match f x s with
    | Except.error s2 => Except.error s2
    | Except.ok s2 => foldE f xs s2

/-- The per-company body of generateSupplyAlerts (storage.ts:1397-1500): the
band-alert loop over all projections, then the unreliable-alert loop over the
projections with low confidence and at most 30 days remaining. -/
def processCompany (failing : String → Bool) (compId : String) (projections : List Projection)
    (s : Store) : Except Store Store :=
  match foldE (processProjection failing compId) projections s with
  | Except.error s2 => Except.error s2
  | Except.ok s2 =>
    foldE (processUnreliable failing compId)
      (projections.filter fun p => p.confidence == "low" && decide (p.daysRemaining ≤ 30)) s2

/-- One company's external data as read by the bulk alert pass. -/
structure CompanyData where
  id : String
  jobs : List Job
  paperTypes : List PaperType
  toners : List TonerCartridge

/-- The per-company projection fetch at storage.ts:1399-1400. -/
def companyProjectionsOf (today : ℕ) (c : CompanyData) : List Projection :=
  getSupplyProjections today c.jobs c.paperTypes c.toners

/-- generateSupplyAlerts run in bulk (storage.ts:1386-1504, companyId
omitted): process each company in order inside one try/catch; a thrown error
is logged and swallowed, leaving the store as it was at the throw point. -/
def generateSupplyAlerts (failing : String → Bool) (today : ℕ) (companies : List CompanyData)
    (s : Store) : Store :=
  match foldE (fun c s2 => processCompany failing c.id (companyProjectionsOf today c) s2)
      companies s with
  | Except.ok s2 => s2
  | Except.error s2 => s2

instance {ε α : Type} [DecidableEq ε] [DecidableEq α] : DecidableEq (Except ε α) :=
  fun a b =>
    match a, b with
    | Except.ok x, Except.ok y =>
      if h : x = y then isTrue (by rw [h])
      else isFalse (by intro hh; cases hh; exact h rfl)
    | Except.error x, Except.error y =>
      if h : x = y then isTrue (by rw [h])
      else isFalse (by intro hh; cases hh; exact h rfl)
    | Except.ok _, Except.error _ => isFalse (by intro hh; cases hh)
    | Except.error _, Except.ok _ => isFalse (by intro hh; cases hh)

/-- Observe the store after a run whether or not it threw: a thrown error is
caught and logged by the engine, so the store state is what remains either
way. -/
def runOk (r : Except Store Store) : Store :=
  match r with
  | Except.ok s => s
  | Except.error s => s

/-- The daily totals fed to the forecaster for one paper type. -/
def paperDailyTotals (today : ℕ) (jobs : List Job) (ptId : String) : List ℚ :=
  (seriesFor (paperJobs (recentJobsOf today jobs) ptId)).map fun d => d.2

/-- The daily totals fed to the forecaster for the single toner series. -/
def tonerDailyTotals (today : ℕ) (jobs : List Job) : List ℚ :=
  (seriesFor (colorJobs (recentJobsOf today jobs))).map fun d => d.2

/-- A paper projection for resource r1 with the given days remaining, used as
a concrete input to the alert policy. -/
def exPaperProj (d : ℤ) : Projection :=
  { type := "paper", id := "r1", name := "Bond", color := none, currentStock := 100,
    dailyConsumption := 10, trend := 0, estimatedPagesPerUnit := none,
    daysRemaining := d, estimatedDepletionDate := 100 + d, status := statusFor d,
    confidence := "high", dataPoints := 7 }

/-- The unread caution alert the engine itself writes for a projection at 10
days remaining. -/
def exAlert10 : Alert :=
  { id := 0, companyId := "c1", type := "paper_caution", title := "Papel próximo a agotarse",
    message := "Tipo de papel \"Bond\" se agotará en 10 día(s). Considere reabastecer.",
    severity := "warning", read := false, resourceId := "r1", resourceType := "paper" }

/-- Store holding only the engine-written caution alert at 10 days. -/
def exStore10 : Store := ⟨[exAlert10], 1⟩

/-- An unread critical alert whose message has no parsable day count. -/
def exAlertNoDias : Alert :=
  { id := 0, companyId := "c1", type := "paper_critical", title := "Inventario",
    message := "Actualización de inventario pendiente", severity := "error", read := false,
    resourceId := "r1", resourceType := "paper" }

/-- Store holding only the day-count-free critical alert. -/
def exStoreNoDias : Store := ⟨[exAlertNoDias], 1⟩

/-- A low-confidence paper projection for resource r1. -/
def exProjLow (d : ℤ) : Projection := { exPaperProj d with confidence := "low" }

/-- Store holding only the unread projection_unreliable alert the engine
writes for resource r1. -/
def exStoreU : Store :=
  runOk (processUnreliable (fun _ => false) "c1" (exProjLow 20) Store.empty)

/-- Company A: one paper type at 10 sheets with two recent 10-page jobs, so
its projection is at 0 days remaining and a depleted alert is attempted. -/
def exCompanyA : CompanyData :=
  ⟨"A", [⟨98, 10, ColorMode.bw, some "pA"⟩, ⟨99, 10, ColorMode.bw, some "pA"⟩],
    [⟨"pA", "Bond", 10⟩], []⟩

/-- Company B: same shape as company A, under its own paper type. -/
def exCompanyB : CompanyData :=
  ⟨"B", [⟨98, 10, ColorMode.bw, some "pB"⟩, ⟨99, 10, ColorMode.bw, some "pB"⟩],
    [⟨"pB", "Bond", 10⟩], []⟩

/-- The projection company B's data produces (checked below by evaluation). -/
def exProjB : Projection :=
  { type := "paper", id := "pB", name := "Bond", color := none, currentStock := 10,
    dailyConsumption := 11, trend := 0, estimatedPagesPerUnit := none, daysRemaining := 0,
    estimatedDepletionDate := 100, status := "critical", confidence := "high", dataPoints := 2 }

/-- Two color jobs of 100 pages on consecutive days. -/
def exTonerJobs : List Job :=
  [⟨98, 100, ColorMode.color, none⟩, ⟨99, 100, ColorMode.color, none⟩]

/-- A black and a tricolor cartridge sharing the color-job history. -/
def exToners : List TonerCartridge :=
  [⟨"t1", "HP", "black", 2⟩, ⟨"t2", "Canon", "tricolor", 1⟩]

/-- The projection the toner example produces for the black cartridge. -/
def exTonerProj1 : Projection :=
  { type := "toner", id := "t1", name := "HP", color := some "black", currentStock := 2,
    dailyConsumption := 110, trend := 0, estimatedPagesPerUnit := some 2500, daysRemaining := 45,
    estimatedDepletionDate := 145, status := "normal", confidence := "high", dataPoints := 2 }

/-- The projection the toner example produces for the tricolor cartridge. -/
def exTonerProj2 : Projection :=
  { type := "toner", id := "t2", name := "Canon", color := some "tricolor", currentStock := 1,
    dailyConsumption := 110, trend := 0, estimatedPagesPerUnit := some 1500, daysRemaining := 13,
    estimatedDepletionDate := 113, status := "caution", confidence := "high", dataPoints := 2 }

lemma olsSumX_closed (ys : List ℚ) :
    olsSumX ys = (ys.length : ℚ) * ((ys.length : ℚ) - 1) / 2 := by
  unfold olsSumX
  induction ys.length with
  | zero => simp
  | succ m ih =>
    rw [List.range_succ, List.map_append, List.sum_append, ih]
    push_cast
    simp
    ring

lemma olsSumXX_closed (ys : List ℚ) :
    olsSumXX ys =
      (ys.length : ℚ) * ((ys.length : ℚ) - 1) * (2 * (ys.length : ℚ) - 1) / 6 := by
  unfold olsSumXX
  induction ys.length with
  | zero => simp
  | succ m ih =>
    rw [List.range_succ, List.map_append, List.sum_append, ih]
    push_cast
    simp
    ring

lemma ols_denom_pos (ys : List ℚ) (h : 2 ≤ ys.length) :
    0 < (ys.length : ℚ) * olsSumXX ys - olsSumX ys * olsSumX ys := by
  rw [olsSumX_closed, olsSumXX_closed]
  have hn : (2 : ℚ) ≤ (ys.length : ℚ) := by exact_mod_cast h
  have h4 : (4 : ℚ) ≤ (ys.length : ℚ) * (ys.length : ℚ) := by nlinarith [hn]
  nlinarith [hn, h4]

/-- C4: the trend estimator returns 0 for series shorter than 2, and for
series of length at least 2 it returns the index-based ordinary least squares
slope (n·ΣXY − ΣX·ΣY) / (n·ΣXX − ΣX²), whose denominator is nonzero. -/
theorem calculateTrend_ols (ys : List ℚ) :
    (ys.length < 2 → calculateTrend ys = 0) ∧
    (2 ≤ ys.length →
      (ys.length : ℚ) * olsSumXX ys - olsSumX ys * olsSumX ys ≠ 0 ∧
      calculateTrend ys * ((ys.length : ℚ) * olsSumXX ys - olsSumX ys * olsSumX ys) =
        (ys.length : ℚ) * olsSumXY ys - olsSumX ys * olsSumY ys) := by
  constructor
  · intro h
    simp [calculateTrend, h]
  · intro h
    have hne : (ys.length : ℚ) * olsSumXX ys - olsSumX ys * olsSumX ys ≠ 0 :=
      ne_of_gt (ols_denom_pos ys h)
    refine ⟨hne, ?_⟩
    rw [calculateTrend, if_neg (by omega)]
    exact div_mul_cancel₀ _ hne

/-- Witness for C4 at the concrete series [10, 13] (length 2) and [5]
(length 1). -/
theorem calculateTrend_ols_witness :
    ((([10, 13] : List ℚ).length : ℚ) * olsSumXX [10, 13] -
        olsSumX [10, 13] * olsSumX [10, 13] ≠ 0 ∧
      calculateTrend [10, 13] * ((([10, 13] : List ℚ).length : ℚ) * olsSumXX [10, 13] -
        olsSumX [10, 13] * olsSumX [10, 13]) =
        (([10, 13] : List ℚ).length : ℚ) * olsSumXY [10, 13] -
          olsSumX [10, 13] * olsSumY [10, 13]) ∧
    calculateTrend [5] = 0 :=
  ⟨(calculateTrend_ols [10, 13]).2 (by decide), (calculateTrend_ols [5]).1 (by decide)⟩

/-- C8: the full list returned by getSupplyProjections is sorted ascending by
daysRemaining, across both paper and toner entries. -/
theorem projections_sorted_by_daysRemaining (today : ℕ) (jobs : List Job)
    (paperTypes : List PaperType) (toners : List TonerCartridge) :
    List.Sorted (fun a b : Projection => a.daysRemaining ≤ b.daysRemaining)
      (getSupplyProjections today jobs paperTypes toners) := by
  haveI : IsTotal Projection fun a b => a.daysRemaining ≤ b.daysRemaining :=
    ⟨fun a b => le_total a.daysRemaining b.daysRemaining⟩
  haveI : IsTrans Projection fun a b => a.daysRemaining ≤ b.daysRemaining :=
    ⟨fun _ _ _ hab hbc => le_trans hab hbc⟩
  exact List.sorted_insertionSort _ _

/-- C9: with predicted daily consumption held fixed and positive, the floored
days remaining is monotone in the stock, both for paper stock directly and for
toner pages remaining (stock times pages-per-cartridge). -/
theorem daysRemaining_monotone (predictedDaily s1 s2 : ℚ) (color : String)
    (hp : 0 < predictedDaily) (h12 : s1 ≤ s2) :
    daysRemainingFor s1 predictedDaily ≤ daysRemainingFor s2 predictedDaily ∧
    daysRemainingFor (s1 * estimatedPagesPerCartridge color) predictedDaily ≤
      daysRemainingFor (s2 * estimatedPagesPerCartridge color) predictedDaily := by
  have hc : 0 ≤ estimatedPagesPerCartridge color := by
    unfold estimatedPagesPerCartridge
    split_ifs <;> norm_num
  constructor
  · exact Int.floor_le_floor ((div_le_div_iff_of_pos_right hp).mpr h12)
  · exact Int.floor_le_floor
      ((div_le_div_iff_of_pos_right hp).mpr (mul_le_mul_of_nonneg_right h12 hc))

/-- Witness for C9 at stocks 5 ≤ 10, predicted daily 11 and black toner. -/
theorem daysRemaining_monotone_witness :
    daysRemainingFor 5 11 ≤ daysRemainingFor 10 11 ∧
    daysRemainingFor (5 * estimatedPagesPerCartridge "black") 11 ≤
      daysRemainingFor (10 * estimatedPagesPerCartridge "black") 11 :=
  daysRemaining_monotone 11 5 10 "black" (by norm_num) (by norm_num)

lemma mem_getSupplyProjections {today : ℕ} {jobs : List Job} {paperTypes : List PaperType}
    {toners : List TonerCartridge} {p : Projection} :
    p ∈ getSupplyProjections today jobs paperTypes toners ↔
      p ∈ paperProjections today (recentJobsOf today jobs) paperTypes ∨
      p ∈ tonerProjections today (recentJobsOf today jobs) toners := by
  unfold getSupplyProjections
  rw [(List.perm_insertionSort _ _).mem_iff, List.mem_append]

lemma mkPaperProjection_eq_some {today : ℕ} {pt : PaperType} {series : List (ℕ × ℚ)}
    {p : Projection} :
    mkPaperProjection today pt series = some p ↔
      0 < series.length ∧
      0 < calculatePredictiveConsumption (series.map fun d => d.2)
        (calculateTrend (series.map fun d => d.2)) ∧
      p = paperRecord today pt series := by
  unfold mkPaperProjection
  split_ifs with h1 h2
  · simp [h1, h2, eq_comm]
  · simp [h1, h2]
  · simp [h1]

lemma mkTonerProjection_eq_some {today : ℕ} {t : TonerCartridge} {series : List (ℕ × ℚ)}
    {p : Projection} :
    mkTonerProjection today t series = some p ↔
      0 < series.length ∧
      0 < calculatePredictiveConsumption (series.map fun d => d.2)
        (calculateTrend (series.map fun d => d.2)) ∧
      p = tonerRecord today t series := by
  unfold mkTonerProjection
  split_ifs with h1 h2
  · simp [h1, h2, eq_comm]
  · simp [h1, h2]
  · simp [h1]

lemma mem_paperProjections {today : ℕ} {recentJobs : List Job} {paperTypes : List PaperType}
    {p : Projection} :
    p ∈ paperProjections today recentJobs paperTypes ↔
      ∃ pt ∈ paperTypes, mkPaperProjection today pt (seriesFor (paperJobs recentJobs pt.id)) = some p := by
  unfold paperProjections
  rw [List.mem_filterMap]

lemma mem_tonerProjections {today : ℕ} {recentJobs : List Job} {toners : List TonerCartridge}
    {p : Projection} :
    p ∈ tonerProjections today recentJobs toners ↔
      ∃ t ∈ toners, mkTonerProjection today t (seriesFor (colorJobs recentJobs)) = some p := by
  unfold tonerProjections
  rw [List.mem_filterMap]

/-- C1: the predictive consumption of a non-empty series is the mean of the
trailing min(7, n) daily totals plus the trend, times 1.1, floored at zero;
and a resource with a non-empty series gets a projection exactly when this
predicted daily value is positive. -/
theorem projection_emission_policy (today : ℕ) (jobs : List Job) (paperTypes : List PaperType)
    (toners : List TonerCartridge) :
    (∀ vs : List ℚ, vs ≠ [] →
      recentAvgOf vs = (vs.drop (vs.length - 7)).sum / ((vs.drop (vs.length - 7)).length : ℚ) ∧
      (vs.drop (vs.length - 7)).length = min 7 vs.length ∧
      ∀ trend : ℚ,
        calculatePredictiveConsumption vs trend = max ((recentAvgOf vs + trend) * (11 / 10)) 0) ∧
    (∀ pt ∈ paperTypes, paperDailyTotals today jobs pt.id ≠ [] →
      ((∃ p ∈ getSupplyProjections today jobs paperTypes toners,
          p.type = "paper" ∧ p.id = pt.id) ↔
        0 < calculatePredictiveConsumption (paperDailyTotals today jobs pt.id)
          (calculateTrend (paperDailyTotals today jobs pt.id)))) ∧
    (∀ t ∈ toners, tonerDailyTotals today jobs ≠ [] →
      ((∃ p ∈ getSupplyProjections today jobs paperTypes toners,
          p.type = "toner" ∧ p.id = t.id) ↔
        0 < calculatePredictiveConsumption (tonerDailyTotals today jobs)
          (calculateTrend (tonerDailyTotals today jobs)))) := by
  refine ⟨?_, ?_, ?_⟩
  · intro vs hvs
    have hlen : (vs.drop (vs.length - 7)).length = min 7 vs.length := by
      rw [List.length_drop]
      omega
    refine ⟨by rw [recentAvgOf, hlen], hlen, ?_⟩
    intro trend
    have : vs.length ≠ 0 := by simpa [List.length_eq_zero] using hvs
    rw [calculatePredictiveConsumption, if_neg this]
  · intro pt hpt hne
    have hser : seriesFor (paperJobs (recentJobsOf today jobs) pt.id) ≠ [] := by
      intro h
      apply hne
      rw [paperDailyTotals, h]
      rfl
    constructor
    · rintro ⟨p, hp, htype, hid⟩
      rcases mem_getSupplyProjections.mp hp with hmem | hmem
      · rcases mem_paperProjections.mp hmem with ⟨pt2, _, hmk⟩
        rcases mkPaperProjection_eq_some.mp hmk with ⟨_, hpos, hrec⟩
        have hid2 : pt2.id = pt.id := by
          rw [hrec] at hid
          simpa [paperRecord] using hid
        rw [hid2] at hpos
        exact hpos
      · rcases mem_tonerProjections.mp hmem with ⟨t2, _, hmk⟩
        rcases mkTonerProjection_eq_some.mp hmk with ⟨_, _, hrec⟩
        rw [hrec] at htype
        simp [tonerRecord] at htype
    · intro hpos
      refine ⟨paperRecord today pt (seriesFor (paperJobs (recentJobsOf today jobs) pt.id)), ?_, ?_, ?_⟩
      · apply mem_getSupplyProjections.mpr
        left
        apply mem_paperProjections.mpr
        refine ⟨pt, hpt, mkPaperProjection_eq_some.mpr ⟨?_, hpos, rfl⟩⟩
        cases h : seriesFor (paperJobs (recentJobsOf today jobs) pt.id) with
        | nil => exact absurd h hser
        | cons a l => simp
      · simp [paperRecord]
      · simp [paperRecord]
  · intro t ht hne
    have hser : seriesFor (colorJobs (recentJobsOf today jobs)) ≠ [] := by
      intro h
      apply hne
      rw [tonerDailyTotals, h]
      rfl
    constructor
    · rintro ⟨p, hp, htype, hid⟩
      rcases mem_getSupplyProjections.mp hp with hmem | hmem
      · rcases mem_paperProjections.mp hmem with ⟨pt2, _, hmk⟩
        rcases mkPaperProjection_eq_some.mp hmk with ⟨_, _, hrec⟩
        rw [hrec] at htype
        simp [paperRecord] at htype
      · rcases mem_tonerProjections.mp hmem with ⟨t2, _, hmk⟩
        rcases mkTonerProjection_eq_some.mp hmk with ⟨_, hpos, _⟩
        exact hpos
    · intro hpos
      refine ⟨tonerRecord today t (seriesFor (colorJobs (recentJobsOf today jobs))), ?_, ?_, ?_⟩
      · apply mem_getSupplyProjections.mpr
        right
        apply mem_tonerProjections.mpr
        refine ⟨t, ht, mkTonerProjection_eq_some.mpr ⟨?_, hpos, rfl⟩⟩
        cases h : seriesFor (colorJobs (recentJobsOf today jobs)) with
        | nil => exact absurd h hser
        | cons a l => simp
      · simp [tonerRecord]
      · simp [tonerRecord]

/-- C3: every emitted projection's status is exactly the 3/7/14 band ladder
applied to its daysRemaining, for paper and toner alike, with exact
boundaries. -/
theorem status_band_policy (today : ℕ) (jobs : List Job) (paperTypes : List PaperType)
    (toners : List TonerCartridge) (p : Projection)
    (hp : p ∈ getSupplyProjections today jobs paperTypes toners) :
    p.status = statusFor p.daysRemaining ∧
    ∀ d : ℤ, (d ≤ 3 → statusFor d = "critical") ∧
      (4 ≤ d → d ≤ 7 → statusFor d = "warning") ∧
      (8 ≤ d → d ≤ 14 → statusFor d = "caution") ∧
      (15 ≤ d → statusFor d = "normal") := by
  constructor
  · rcases mem_getSupplyProjections.mp hp with hmem | hmem
    · rcases mem_paperProjections.mp hmem with ⟨pt, _, hmk⟩
      rcases mkPaperProjection_eq_some.mp hmk with ⟨_, _, hrec⟩
      rw [hrec]
      simp [paperRecord]
    · rcases mem_tonerProjections.mp hmem with ⟨t, _, hmk⟩
      rcases mkTonerProjection_eq_some.mp hmk with ⟨_, _, hrec⟩
      rw [hrec]
      simp [tonerRecord]
  · intro d
    unfold statusFor
    refine ⟨?_, ?_, ?_, ?_⟩ <;> intros <;> split_ifs <;> first | rfl | omega

lemma colorJobs_recent_filter (today : ℕ) (jobs : List Job) :
    colorJobs (recentJobsOf today (jobs.filter fun j => j.colorMode = ColorMode.color)) =
      colorJobs (recentJobsOf today jobs) := by
  unfold colorJobs recentJobsOf
  simp only [List.filter_filter]
  apply List.filter_congr
  intro j _
  by_cases h : j.colorMode = ColorMode.color <;> simp [h]

/-- C10: all toner projections of one run agree on dailyConsumption, trend,
confidence and dataPoints, because every cartridge is projected against the
single company-wide series of color jobs; and removing the black-and-white
jobs from the history leaves the toner projections unchanged. -/
theorem toner_projection_uniformity (today : ℕ) (jobs : List Job) (paperTypes : List PaperType)
    (toners : List TonerCartridge) (p q : Projection)
    (hp : p ∈ getSupplyProjections today jobs paperTypes toners)
    (hq : q ∈ getSupplyProjections today jobs paperTypes toners)
    (hpt : p.type = "toner") (hqt : q.type = "toner") :
    (p.dailyConsumption = q.dailyConsumption ∧ p.trend = q.trend ∧
      p.confidence = q.confidence ∧ p.dataPoints = q.dataPoints) ∧
    tonerProjections today (recentJobsOf today jobs) toners =
      tonerProjections today
        (recentJobsOf today (jobs.filter fun j => j.colorMode = ColorMode.color)) toners := by
  constructor
  · have hp2 : ∃ t ∈ toners,
        mkTonerProjection today t (seriesFor (colorJobs (recentJobsOf today jobs))) = some p := by
      rcases mem_getSupplyProjections.mp hp with hmem | hmem
      · rcases mem_paperProjections.mp hmem with ⟨pt, _, hmk⟩
        rcases mkPaperProjection_eq_some.mp hmk with ⟨_, _, hrec⟩
        rw [hrec] at hpt
        simp [paperRecord] at hpt
      · exact mem_tonerProjections.mp hmem
    have hq2 : ∃ t ∈ toners,
        mkTonerProjection today t (seriesFor (colorJobs (recentJobsOf today jobs))) = some q := by
      rcases mem_getSupplyProjections.mp hq with hmem | hmem
      · rcases mem_paperProjections.mp hmem with ⟨pt, _, hmk⟩
        rcases mkPaperProjection_eq_some.mp hmk with ⟨_, _, hrec⟩
        rw [hrec] at hqt
        simp [paperRecord] at hqt
      · exact mem_tonerProjections.mp hmem
    rcases hp2 with ⟨t1, _, hmk1⟩
    rcases hq2 with ⟨t2, _, hmk2⟩
    rcases mkTonerProjection_eq_some.mp hmk1 with ⟨_, _, hrec1⟩
    rcases mkTonerProjection_eq_some.mp hmk2 with ⟨_, _, hrec2⟩
    rw [hrec1, hrec2]
    simp [tonerRecord]
  · unfold tonerProjections
    rw [colorJobs_recent_filter]

lemma foldE_append_error {α : Type} (f : α → Store → Except Store Store)
    (pre : List α) (c : α) (post : List α) (s s1 s2 : Store)
    (hpre : foldE f pre s = Except.ok s1) (hc : f c s1 = Except.error s2) :
    foldE f (pre ++ c :: post) s = Except.error s2 := by
  induction pre generalizing s with
  | nil =>
    simp only [foldE] at hpre
    cases hpre
    simp [foldE, hc]
  | cons x xs ih =>
    simp only [List.cons_append, foldE]
    cases hfx : f x s with
    | error s3 =>
      simp only [foldE, hfx] at hpre
      exact Except.noConfusion hpre
    | ok s3 =>
      simp only [foldE, hfx] at hpre
      exact ih s3 hpre

/-- C5 (amended): a failure while building one company's alerts is caught and
logged at the top level of generateSupplyAlerts, so it never propagates to the
caller, but it aborts the bulk run: the store is left exactly as it was at the
throw point and the companies after the failing one are never processed (the
result does not depend on them). -/
theorem bulk_failure_abort (failing : String → Bool) (today : ℕ)
    (pre : List CompanyData) (c : CompanyData) (post : List CompanyData) (s s1 s2 : Store)
    (hpre : foldE (fun cd st => processCompany failing cd.id (companyProjectionsOf today cd) st)
      pre s = Except.ok s1)
    (hc : processCompany failing c.id (companyProjectionsOf today c) s1 = Except.error s2) :
    generateSupplyAlerts failing today (pre ++ c :: post) s = s2 := by
  unfold generateSupplyAlerts
  rw [foldE_append_error _ pre c post s s1 s2 hpre hc]

/-- C2 (amended): the dedup rule is keyed by the exact (type, resourceId,
resourceType): with no unread match the alert is created; with a match it is
superseded (mark read plus create) exactly when the day difference is at least
2, and left alone otherwise. For the claim's example, an existing caution
alert at 10 days and a new projection at 9 days cause no action; at 7 days the
selected type changes to warning, so a new alert is created while the caution
alert stays unread; the mark-read-plus-create path needs the same type band,
as at 8 days. -/
theorem alert_dedup_rule (compId : String) (p : Projection) (s : Store)
    (ty ti msg sev : String) (h : alertContentFor p = some (ty, ti, msg, sev)) :
    (findSimilarAlert (s.getAllAlerts compId) ty p.id p.type = none →
      processProjection (fun _ => false) compId p s =
        Except.ok (s.createAlert ⟨compId, ty, ti, msg, sev, p.id, p.type⟩)) ∧
    (∀ a, findSimilarAlert (s.getAllAlerts compId) ty p.id p.type = some a →
      (2 ≤ |p.daysRemaining - (parseDias a.message : ℤ)| →
        processProjection (fun _ => false) compId p s =
          Except.ok ((s.markAlertRead a.id).createAlert ⟨compId, ty, ti, msg, sev, p.id, p.type⟩)) ∧
      (|p.daysRemaining - (parseDias a.message : ℤ)| < 2 →
        processProjection (fun _ => false) compId p s = Except.ok s)) := by
  constructor
  · intro hfind
    simp only [processProjection, h, hfind]
    rfl
  · intro a hfind
    constructor
    · intro hge
      simp only [processProjection, h, hfind, if_pos hge]
      rfl
    · intro hlt
      simp only [processProjection, h, hfind, if_neg (not_le.mpr hlt)]

/-- C7 (amended): when the existing unread alert's message has no parsable
day count the comparison treats it as 0 days, so the update (mark read plus
create) fires exactly when the new projection's daysRemaining has absolute
value at least 2; at 0 or 1 days remaining nothing is written. -/
theorem parse_failure_policy (compId : String) (p : Projection) (s : Store)
    (ty ti msg sev : String) (a : Alert)
    (h : alertContentFor p = some (ty, ti, msg, sev))
    (hfind : findSimilarAlert (s.getAllAlerts compId) ty p.id p.type = some a)
    (hparse : findDiasCount a.message.toList = none) :
    (2 ≤ |p.daysRemaining| →
      processProjection (fun _ => false) compId p s =
        Except.ok ((s.markAlertRead a.id).createAlert ⟨compId, ty, ti, msg, sev, p.id, p.type⟩)) ∧
    (|p.daysRemaining| < 2 →
      processProjection (fun _ => false) compId p s = Except.ok s) := by
  have hp0 : (parseDias a.message : ℤ) = 0 := by
    unfold parseDias
    rw [hparse]
    rfl
  constructor
  · intro hge
    have hge2 : 2 ≤ |p.daysRemaining - (parseDias a.message : ℤ)| := by
      rw [hp0, sub_zero]
      exact hge
    simp only [processProjection, h, hfind, if_pos hge2]
    rfl
  · intro hlt
    have hlt2 : |p.daysRemaining - (parseDias a.message : ℤ)| < 2 := by
      rw [hp0, sub_zero]
      exact hlt
    simp only [processProjection, h, hfind, if_neg (not_le.mpr hlt2)]

/-- C6 (amended): projections with low confidence and at most 30 days
remaining are exactly the ones fed to the unreliable-alert pass; the pass
creates a projection_unreliable info alert when no unread one exists for the
resourceId (the lookup ignores the status type and resourceType), and takes
no action at all when one exists — there is no mark-read-and-recreate branch,
whatever the day difference. -/
theorem unreliable_alert_policy (compId : String) (p : Projection) (s : Store)
    (hconf : p.confidence = "low") (hdays : p.daysRemaining ≤ 30) :
    (∀ projections : List Projection, p ∈ projections →
      p ∈ projections.filter fun q => q.confidence == "low" && decide (q.daysRemaining ≤ 30)) ∧
    (findUnreliableAlert (s.getAllAlerts compId) p.id = none →
      processUnreliable (fun _ => false) compId p s =
        Except.ok (s.createAlert ⟨compId, "projection_unreliable", unreliableTitle p.name,
          unreliableMsg p.name, "info", p.id, p.type⟩)) ∧
    (∀ a, findUnreliableAlert (s.getAllAlerts compId) p.id = some a →
      processUnreliable (fun _ => false) compId p s = Except.ok s) := by
  refine ⟨?_, ?_, ?_⟩
  · intro projections hmem
    rw [List.mem_filter]
    exact ⟨hmem, by simp [hconf, hdays]⟩
  · intro hfind
    simp only [processUnreliable, hfind]
    rfl
  · intro a hfind
    simp only [processUnreliable, hfind]

section ConcreteRuns

set_option maxRecDepth 1000000

attribute [local semireducible] Rat.mul Rat.inv Rat.add Rat.sub

/-- C2 counterexample: starting from the unread caution alert the engine
itself writes at 10 days remaining, a new projection at 7 days remaining
creates a new warning alert but leaves the old caution alert unread (id 0
still has read = false), because the lookup is keyed by the exact alert type;
the claimed mark-read-plus-create does not happen. -/
theorem alert_dedup_example_counterexample :
    (runOk (processProjection (fun _ => false) "c1" (exPaperProj 7) exStore10)).alerts.map
        (fun a => (a.id, a.type, a.read)) =
      [(0, "paper_caution", false), (1, "paper_warning", false)] := by decide

/-- Witness for C2 at the claim's own example: existing caution alert at 10
days, new projection at 9 days, no store write. -/
theorem alert_dedup_rule_witness :
    processProjection (fun _ => false) "c1" (exPaperProj 9) exStore10 = Except.ok exStore10 := by
  have h := alert_dedup_rule "c1" (exPaperProj 9) exStore10 "paper_caution"
    "Papel próximo a agotarse"
    "Tipo de papel \"Bond\" se agotará en 9 día(s). Considere reabastecer."
    "warning" (by decide)
  exact (h.2 exAlert10 (by decide)).2 (by decide)

/-- C5 counterexample: with company A's createAlert throwing, the bulk run
over [A, B] leaves company B with no alert, although the same run over [B]
alone creates one — the remaining companies are not processed after a
failure. -/
theorem bulk_isolation_counterexample :
    ((generateSupplyAlerts (fun c => c == "A") 100 [exCompanyA, exCompanyB]
        Store.empty).alerts.filter fun a => a.companyId == "B") = [] ∧
    ((generateSupplyAlerts (fun c => c == "A") 100 [exCompanyB]
        Store.empty).alerts.filter fun a => a.companyId == "B").length = 1 := by decide

/-- Witness for C5: company A throws on its first createAlert, so the bulk
run over [A, B] returns the store as it was at the throw (empty), never
touching company B. -/
theorem bulk_failure_abort_witness :
    generateSupplyAlerts (fun c => c == "A") 100 [exCompanyA, exCompanyB] Store.empty =
      Store.empty :=
  bulk_failure_abort (fun c => c == "A") 100 [] exCompanyA [exCompanyB] Store.empty
    Store.empty Store.empty rfl (by decide)

/-- C6 counterexample: with the unread projection_unreliable alert the engine
wrote at 20 days remaining, a new low-confidence projection at 5 days (day
difference 5 ≥ 2) causes no store write at all — the old alert stays unread
and nothing is created, so the status-alert update rule is not applied
here. -/
theorem unreliable_dedup_counterexample :
    processUnreliable (fun _ => false) "c1" (exProjLow 5) exStoreU = Except.ok exStoreU ∧
    exStoreU.alerts.map (fun a => (a.type, a.read)) = [("projection_unreliable", false)] := by
  decide

/-- Witness for C6: a low-confidence projection at 20 days with no existing
unreliable alert creates the info alert. -/
theorem unreliable_alert_policy_witness :
    processUnreliable (fun _ => false) "c1" (exProjLow 20) Store.empty =
      Except.ok (Store.empty.createAlert ⟨"c1", "projection_unreliable",
        unreliableTitle "Bond", unreliableMsg "Bond", "info", "r1", "paper"⟩) :=
  (unreliable_alert_policy "c1" (exProjLow 20) Store.empty rfl (by decide)).2.1 (by decide)

/-- C7 counterexample: the existing unread critical alert has no parsable day
count in its message, and a new projection at 1 day remaining performs no
store write (parsed 0, difference 1 < 2) — the update is not always
triggered. -/
theorem parse_failure_counterexample :
    findDiasCount exAlertNoDias.message.toList = none ∧
    processProjection (fun _ => false) "c1" (exPaperProj 1) exStoreNoDias =
      Except.ok exStoreNoDias := by decide

/-- Witness for C7: with the same unparsable alert, a projection at 3 days
remaining does mark the old alert read and creates a new one. -/
theorem parse_failure_policy_witness :
    processProjection (fun _ => false) "c1" (exPaperProj 3) exStoreNoDias =
      Except.ok ((exStoreNoDias.markAlertRead 0).createAlert
        ⟨"c1", "paper_critical", "¡Papel crítico!",
          "Tipo de papel \"Bond\" se agotará en 3 día(s). Stock actual: 100. Consumo diario: 10",
          "error", "r1", "paper"⟩) := by
  have h := parse_failure_policy "c1" (exPaperProj 3) exStoreNoDias "paper_critical"
    "¡Papel crítico!"
    "Tipo de papel \"Bond\" se agotará en 3 día(s). Stock actual: 100. Consumo diario: 10"
    "error" exAlertNoDias (by decide) (by decide) (by decide)
  exact h.1 (by decide)

/-- Witness for C1: company B's paper type has a non-empty series, and the
emission iff holds at it. -/
theorem projection_emission_policy_witness :
    (∃ p ∈ getSupplyProjections 100 exCompanyB.jobs exCompanyB.paperTypes [],
        p.type = "paper" ∧ p.id = "pB") ↔
      0 < calculatePredictiveConsumption (paperDailyTotals 100 exCompanyB.jobs "pB")
        (calculateTrend (paperDailyTotals 100 exCompanyB.jobs "pB")) :=
  (projection_emission_policy 100 exCompanyB.jobs exCompanyB.paperTypes []).2.1
    ⟨"pB", "Bond", 10⟩ (by decide) (by decide)

/-- Witness for C3: the projection company B's run emits carries the status
computed from its daysRemaining. -/
theorem status_band_policy_witness :
    exProjB.status = statusFor exProjB.daysRemaining :=
  (status_band_policy 100 exCompanyB.jobs exCompanyB.paperTypes [] exProjB (by decide)).1

/-- Witness for C10: the two toner projections of the two-cartridge example
agree on the series-derived fields, and dropping black-and-white jobs changes
nothing. -/
theorem toner_projection_uniformity_witness :
    (exTonerProj1.dailyConsumption = exTonerProj2.dailyConsumption ∧
      exTonerProj1.trend = exTonerProj2.trend ∧
      exTonerProj1.confidence = exTonerProj2.confidence ∧
      exTonerProj1.dataPoints = exTonerProj2.dataPoints) ∧
    tonerProjections 100 (recentJobsOf 100 exTonerJobs) exToners =
      tonerProjections 100
        (recentJobsOf 100 (exTonerJobs.filter fun j => j.colorMode = ColorMode.color))
        exToners :=
  toner_projection_uniformity 100 exTonerJobs [] exToners exTonerProj1 exTonerProj2
    (by decide) (by decide) rfl rfl

end ConcreteRuns

end SentinelPro
